import Mathlib

/-!
Formal model of the pdf-convert library (src/pdf-convert.ts).

The library wraps an external converter (ghostscript): it materializes a
PDF source (in-memory bytes, local path, or web URL) into a temporary
file, then runs the converter per operation (page-to-image extraction,
shrink/recompress, version query, page count).  This file embeds, as
plain Lean functions, the pure logic of those operations: text is
modelled as `List Char`, byte buffers as `List Nat`, file-system and
process outcomes are supplied explicitly through an environment record,
and each operation returns its result together with the trace of
external effects it performs.
-/

/-! ## Text utilities mirroring the JavaScript string operations used -/

/-- JavaScript `String.prototype.trim`: strip whitespace from both ends. -/
def jsTrim (s : List Char) : List Char :=
  ((s.dropWhile Char.isWhitespace).reverse.dropWhile Char.isWhitespace).reverse

/-- JavaScript `String.prototype.split` with a single-character separator:
`jsSplit sep s` never returns `[]`; an empty input gives `[[]]`. -/
def jsSplit (sep : Char) : List Char → List (List Char)
  | [] => [[]]
  | c :: rest =>
    if c = sep then [] :: jsSplit sep rest
    else
      match jsSplit sep rest with
      | h :: t => (c :: h) :: t
      | [] => [[c]]

/-- Whether `needle` occurs as a contiguous run inside `hay`. -/
def containsSeq (hay needle : List Char) : Bool :=
  match hay with
  | [] => needle.isEmpty
  | _ :: t => needle.isPrefixOf hay || containsSeq t needle

/-! ## Version query (`getPdfVersion`)

Source: `getPdfVersion` reads bytes 0..1024 of the temp file (1025
bytes), runs the JavaScript regex `/%PDF-[0-9].[0-9]/g` over that
prefix, and on a first match splits it on `-`; the second part,
trimmed, is the version, returned only when the split has exactly two
parts; every other case yields the literal `"1.4"`. -/

/-- JavaScript regex `.` (no `s` flag): any character except a line
terminator (LF, CR, U+2028, U+2029). -/
def wildcardOk (c : Char) : Bool :=
  !(c == '\n' || c == '\r' || c == Char.ofNat 8232 || c == Char.ofNat 8233)

/-- Whether the regex `%PDF-[0-9].[0-9]` matches at the head of `s`. -/
def matchesAt (s : List Char) : Bool :=
  match s with
  | a :: b :: c :: d :: e :: d1 :: w :: d2 :: _ =>
    (a == '%') && (b == 'P') && (c == 'D') && (d == 'F') && (e == '-') &&
      d1.isDigit && wildcardOk w && d2.isDigit
  | _ => false

/-- Leftmost match of `%PDF-[0-9].[0-9]` in `w` (JavaScript
`String.prototype.match` with the `g` flag, first element). -/
def firstMatch : List Char → Option (List Char)
  | [] => none
  | c :: t => if matchesAt (c :: t) then some ((c :: t).take 8) else firstMatch t

/-- The fallback version literal `"1.4"`. -/
def fallbackVersion : List Char := ['1', '.', '4']

/-- Body of `getPdfVersion` applied to the decoded text window: first
regex match, split on `-`, second part trimmed when the split has
exactly two parts, fallback `"1.4"` otherwise. -/
def getPdfVersionCore (w : List Char) : List Char :=
  match firstMatch w with
  | some m =>
    let pdfVersionData := jsSplit '-' m
    if pdfVersionData.length = 2 then jsTrim (pdfVersionData.getD 1 [])
    else fallbackVersion
  | none => fallbackVersion

/-- `getPdfVersion` on a file content: only the first 1025 bytes
(stream options start 0, end 1024, both inclusive) are examined. -/
def getPdfVersionModel (file : List Char) : List Char :=
  getPdfVersionCore (file.take 1025)

/-! ### Definitions written from the specification text, for comparison -/

/-- Modelled from the spec claim as literally stated: `%PDF-` followed
by a digit, any single character, and a digit (the wildcard accepts
every character, including line terminators). -/
def claimedMatchAt (s : List Char) : Bool :=
  match s with
  | a :: b :: c :: d :: e :: d1 :: _ :: d2 :: _ =>
    (a == '%') && (b == 'P') && (c == 'D') && (d == 'F') && (e == '-') &&
      d1.isDigit && d2.isDigit
  | _ => false

/-- Leftmost match under the claim-as-stated pattern. -/
def claimedFirstMatch : List Char → Option (List Char)
  | [] => none
  | c :: t =>
    if claimedMatchAt (c :: t) then some ((c :: t).take 8) else claimedFirstMatch t

/-- The version-query behaviour as the claim literally states it: when
at least one match exists, split the first match on `-` and return the
trailing token trimmed; fall back to `"1.4"` only when no match exists. -/
def pdfVersionClaimed (file : List Char) : List Char :=
  match claimedFirstMatch (file.take 1025) with
  | some m => jsTrim ((jsSplit '-' m).getLastD [])
  | none => fallbackVersion

/-- Index of the leftmost regex match, phrased through a search over all
start positions (specification-style statement of "first match"). -/
def specFirstMatchIdx (w : List Char) : Option Nat :=
  (List.range w.length).find? (fun i => matchesAt (w.drop i))

/-- The version query as amended: first 1025 bytes; leftmost match of
`%PDF-` digit, any character other than a line terminator, digit; the
trailing part trimmed when the split on `-` has exactly two parts; the
literal `"1.4"` in every other case. -/
def pdfVersionAmendedSpec (file : List Char) : List Char :=
  match specFirstMatchIdx (file.take 1025) with
  | some i =>
    match jsSplit '-' (((file.take 1025).drop i).take 8) with
    | [_, b] => jsTrim b
    | _ => fallbackVersion
  | none => fallbackVersion

/-! ## Session state and the source materializer (`writePDFToTemp`) -/

/-- The constructor-supplied source: a raw byte buffer or a string
(local path or web URL, discriminated by `isWebUrl`). -/
inductive PdfSource where
  | buffer (bytes : List Nat)
  | str (s : String)
  deriving DecidableEq, Repr

/-- JavaScript regex `/^https?:\/\//` test on the source string. -/
def isWebUrl (s : String) : Bool :=
  "http://".toList.isPrefixOf s.toList || "https://".toList.isPrefixOf s.toList

/-- A conversion session: the source fixed at construction and the
lazily created temp-file reference (`this.tmpFile`), identified by its
path. -/
structure Session where
  source : PdfSource
  tmpFile : Option String
  deriving DecidableEq, Repr

/-- Outcomes the environment supplies for the external steps of
materialization: temp-file allocation, the web fetch, the local copy,
and the buffer write. -/
structure Env where
  allocResult : Except String String
  fetchResult : Except String Unit
  copyResult : Except String Unit
  writeResult : Except String Unit

/-- Externally visible effects an operation performs. -/
inductive Effect where
  | allocTmp (path : String)
  | fetchUrl (url : String) (dest : String)
  | copySrc (src : String) (dest : String)
  | writeBuf (dest : String)
  | runConverter (args : List String)
  | runShell (cmd : String)
  | cleanupTmp (path : String)
  deriving DecidableEq, Repr

/-- `writePDFToTemp`: return immediately when a temp file already
exists; otherwise allocate one (assigning `this.tmpFile` first), then
fetch / copy / write the source into it.  Fetch and write failures are
wrapped; a copy failure propagates unwrapped; an allocation failure is
wrapped and leaves the reference unset. -/
def writePDFToTemp (s : Session) (env : Env) :
    Except String Unit × Session × List Effect :=
  if s.tmpFile.isSome then (Except.ok (), s, [])
  else
    match env.allocResult with
    | Except.error e => (Except.error ("Unable to open tmp file: " ++ e), s, [])
    | Except.ok t =>
      let s2 : Session := { s with tmpFile := some t }
      match s.source with
      | PdfSource.str p =>
        if isWebUrl p then
          match env.fetchResult with
          | Except.error e =>
            (Except.error ("Unable to fetch file from web location: " ++ e), s2,
              [Effect.allocTmp t, Effect.fetchUrl p t])
          | Except.ok _ =>
            (Except.ok (), s2, [Effect.allocTmp t, Effect.fetchUrl p t])
        else
          match env.copyResult with
          | Except.error e =>
            (Except.error e, s2, [Effect.allocTmp t, Effect.copySrc p t])
          | Except.ok _ =>
            (Except.ok (), s2, [Effect.allocTmp t, Effect.copySrc p t])
      | PdfSource.buffer _ =>
        match env.writeResult with
        | Except.error e =>
          (Except.error ("Unable to write tmp file: " ++ e), s2,
            [Effect.allocTmp t, Effect.writeBuf t])
        | Except.ok _ =>
          (Except.ok (), s2, [Effect.allocTmp t, Effect.writeBuf t])

/-- `dispose`: remove the temp file and clear the reference; a no-op
when no temp file exists. -/
def dispose (s : Session) : Session × List Effect :=
  match s.tmpFile with
  | some t => ({ s with tmpFile := none }, [Effect.cleanupTmp t])
  | none => (s, [])

/-! ## Converter argument lists and the per-operation cores -/

/-- Argument list built by `convertPageToImage` (png16m device). -/
def convertArgs (page resolution : Nat) (outPath inPath : String) : List String :=
  ["-dQUIET", "-dPARANOIDSAFER", "-dBATCH", "-dNOPAUSE", "-dNOPROMPT",
    "-sDEVICE=png16m", "-dTextAlphaBits=4", "-dGraphicsAlphaBits=4",
    "-r" ++ toString resolution,
    "-dFirstPage=" ++ toString page,
    "-dLastPage=" ++ toString page,
    "-sOutputFile=" ++ outPath, inPath]

/-- Argument list built by `shrink`, exactly as the source lists it
(note the mono downsample pair appears twice, lines 165-168 of the
source). -/
def shrinkArgs (dpi : Nat) (pdfVersion : String) (greyScale : Bool)
    (outPath inPath : String) : List String :=
  let greyParams : List String :=
    if greyScale then
      ["-sProcessColorModel=DeviceGray", "-sColorConversionStrategy=Gray",
        "-dOverrideICC"]
    else []
  ["-dQUIET", "-dPARANOIDSAFER", "-dBATCH", "-dNOPAUSE", "-dNOPROMPT",
    "-sDEVICE=pdfwrite",
    "-dCompatibilityLevel=" ++ pdfVersion,
    "-dPDFSETTINGS=/screen",
    "-dEmbedAllFonts=true",
    "-dSubsetFonts=true",
    "-dAutoRotatePages=/None",
    "-dColorImageDownsampleType=/Bicubic",
    "-dColorImageResolution=" ++ toString dpi,
    "-dGrayImageDownsampleType=/Bicubic",
    "-dGrayImageResolution=" ++ toString dpi,
    "-dMonoImageDownsampleType=/Subsample",
    "-dMonoImageResolution=" ++ toString dpi,
    "-dMonoImageDownsampleType=/Subsample",
    "-dMonoImageResolution=" ++ toString dpi]
  ++ greyParams ++ ["-sOutputFile=" ++ outPath, inPath]

/-- Options record of `shrink`; `none` selects the coded default. -/
structure PdfShrinkOptions where
  resolution : Option Nat
  pdfVersion : Option String
  greyScale : Option Bool
  deriving Repr

/-- View a byte buffer as text (the version query decodes the temp
file's bytes before matching). -/
def bytesToChars (bs : List Nat) : List Char :=
  bs.map Char.ofNat

/-- The try-block of `shrink` once the temp file (content `content`,
path `inPath`) exists: defaults, the converter invocation (outcome
`gsOut` gives the produced file's bytes), then the size comparison —
when the input size is less than or equal to the shrunken size, the
input bytes are returned unchanged. -/
def shrinkCore (opts : PdfShrinkOptions) (content : List Nat)
    (inPath outPath : String) (gsOut : Except String (List Nat)) :
    Except String (List Nat) × List String :=
  let dpi := opts.resolution.getD 300
  let pdfVersion :=
    opts.pdfVersion.getD (String.mk (getPdfVersionModel (bytesToChars content)))
  let greyScale := opts.greyScale.getD false
  let args := shrinkArgs dpi pdfVersion greyScale outPath inPath
  match gsOut with
  | Except.error e =>
    (Except.error ("Unable to process image from page: " ++ e), args)
  | Except.ok out =>
    if content.length ≤ out.length then (Except.ok content, args)
    else (Except.ok out, args)

/-- The try-block of `convertPageToImage`: converter invocation plus
read-back of the produced image (folded into `gsOut`); failures are
wrapped with the page-image extraction message. -/
def convertCore (page : Nat) (resolution : Option Nat)
    (inPath outPath : String) (gsOut : Except String (List Nat)) :
    Except String (List Nat) × List String :=
  let args := convertArgs page (resolution.getD 600) outPath inPath
  match gsOut with
  | Except.error e =>
    (Except.error ("Unable to process image from page: " ++ e), args)
  | Except.ok buf => (Except.ok buf, args)

/-- Path normalization in `getPageCount`: backslashes to forward
slashes, then trim. -/
def normalizedPath (p : String) : String :=
  String.mk (jsTrim (p.toList.map (fun c => if c = '\\' then '/' else c)))

/-- A single-quote character, used to build the shell command string. -/
def squote : String := String.singleton (Char.ofNat 39)

/-- The shell command `getPageCount` runs. -/
def pageCountCommand (path : String) : String :=
  "gs -dNODISPLAY -dNOSAFER -q -c " ++ squote ++ "(" ++ normalizedPath path
    ++ ") (r) file runpdfbegin pdfpagecount = quit" ++ squote

/-- JavaScript `parseInt` applied to the digit-filtered stdout
(`stdout.replace(/\D/g, '')`): `none` models the `NaN` produced when no
digits remain. -/
def parseIntStripped (stdout : String) : Option Nat :=
  let ds := stdout.toList.filter Char.isDigit
  if ds.isEmpty then none else some (ds.foldl (fun n c => n * 10 + (c.toNat - 48)) 0)

/-! ## The session-level operations -/

/-- `shrink`: materialize, guard the temp-file reference, then run the
core; the effect trace records the converter invocation. -/
def shrink (s : Session) (env : Env) (opts : PdfShrinkOptions)
    (content : List Nat) (outPath : String) (gsOut : Except String (List Nat)) :
    Except String (List Nat) × Session × List Effect :=
  match writePDFToTemp s env with
  | (Except.error e, s2, eff) => (Except.error e, s2, eff)
  | (Except.ok _, s2, eff) =>
    match s2.tmpFile with
    | none => (Except.error "No temporary pdf file!", s2, eff)
    | some t =>
      let core := shrinkCore opts content t outPath gsOut
      (core.1, s2, eff ++ [Effect.runConverter core.2])

/-- `convertPageToImage`: materialize, guard, run the core. -/
def convertPageToImage (s : Session) (env : Env) (page : Nat)
    (resolution : Option Nat) (outPath : String)
    (gsOut : Except String (List Nat)) :
    Except String (List Nat) × Session × List Effect :=
  match writePDFToTemp s env with
  | (Except.error e, s2, eff) => (Except.error e, s2, eff)
  | (Except.ok _, s2, eff) =>
    match s2.tmpFile with
    | none => (Except.error "No temporary pdf file!", s2, eff)
    | some t =>
      let core := convertCore page resolution t outPath gsOut
      (core.1, s2, eff ++ [Effect.runConverter core.2])

/-- `getPageCount`: materialize, guard, run the shell command; a
process failure is wrapped, a successful stdout is digit-stripped and
parsed (`none` = `NaN`). -/
def getPageCount (s : Session) (env : Env) (proc : Except String String) :
    Except String (Option Nat) × Session × List Effect :=
  match writePDFToTemp s env with
  | (Except.error e, s2, eff) => (Except.error e, s2, eff)
  | (Except.ok _, s2, eff) =>
    match s2.tmpFile with
    | none => (Except.error "No temporary pdf file!", s2, eff)
    | some t =>
      match proc with
      | Except.error e =>
        (Except.error ("Unable to get page count: " ++ e), s2,
          eff ++ [Effect.runShell (pageCountCommand t)])
      | Except.ok stdout =>
        (Except.ok (parseIntStripped stdout), s2,
          eff ++ [Effect.runShell (pageCountCommand t)])

/-! ## Concrete sample values used by the closed witness statements -/

/-- A session that is already materialized. -/
def sessionM : Session :=
  { source := PdfSource.buffer [37, 80], tmpFile := some "/tmp/pdf0" }

/-- A fresh session over a web URL source. -/
def sessionW : Session :=
  { source := PdfSource.str "http://host/file.pdf", tmpFile := none }

/-- An environment where every external step succeeds. -/
def env0 : Env :=
  { allocResult := Except.ok "/tmp/t0", fetchResult := Except.ok (),
    copyResult := Except.ok (), writeResult := Except.ok () }

/-- An environment where allocation succeeds and the web fetch fails. -/
def envFail : Env :=
  { allocResult := Except.ok "/tmp/t1", fetchResult := Except.error "net down",
    copyResult := Except.ok (), writeResult := Except.ok () }

/-- The shrink argument list as the claim states it: each flag exactly
once, grayscale flags before the output path, input path last. -/
def specShrinkArgsClaimed (dpi : Nat) (pdfVersion : String) (greyScale : Bool)
    (outPath inPath : String) : List String :=
  ["-dQUIET", "-dPARANOIDSAFER", "-dBATCH", "-dNOPAUSE", "-dNOPROMPT",
    "-sDEVICE=pdfwrite",
    "-dCompatibilityLevel=" ++ pdfVersion,
    "-dPDFSETTINGS=/screen",
    "-dEmbedAllFonts=true",
    "-dSubsetFonts=true",
    "-dAutoRotatePages=/None",
    "-dColorImageDownsampleType=/Bicubic",
    "-dColorImageResolution=" ++ toString dpi,
    "-dGrayImageDownsampleType=/Bicubic",
    "-dGrayImageResolution=" ++ toString dpi,
    "-dMonoImageDownsampleType=/Subsample",
    "-dMonoImageResolution=" ++ toString dpi]
  ++ (if greyScale then
        ["-sProcessColorModel=DeviceGray", "-sColorConversionStrategy=Gray",
          "-dOverrideICC"]
      else [])
  ++ ["-sOutputFile=" ++ outPath, inPath]

/-- The shrink argument list as amended: identical to the claimed one
except that the mono-image downsample pair occurs a second time,
directly after its first occurrence. -/
def specShrinkArgsAmended (dpi : Nat) (pdfVersion : String) (greyScale : Bool)
    (outPath inPath : String) : List String :=
  if greyScale then
    ["-dQUIET", "-dPARANOIDSAFER", "-dBATCH", "-dNOPAUSE", "-dNOPROMPT",
      "-sDEVICE=pdfwrite",
      "-dCompatibilityLevel=" ++ pdfVersion,
      "-dPDFSETTINGS=/screen",
      "-dEmbedAllFonts=true",
      "-dSubsetFonts=true",
      "-dAutoRotatePages=/None",
      "-dColorImageDownsampleType=/Bicubic",
      "-dColorImageResolution=" ++ toString dpi,
      "-dGrayImageDownsampleType=/Bicubic",
      "-dGrayImageResolution=" ++ toString dpi,
      "-dMonoImageDownsampleType=/Subsample",
      "-dMonoImageResolution=" ++ toString dpi,
      "-dMonoImageDownsampleType=/Subsample",
      "-dMonoImageResolution=" ++ toString dpi,
      "-sProcessColorModel=DeviceGray", "-sColorConversionStrategy=Gray",
      "-dOverrideICC",
      "-sOutputFile=" ++ outPath, inPath]
  else
    ["-dQUIET", "-dPARANOIDSAFER", "-dBATCH", "-dNOPAUSE", "-dNOPROMPT",
      "-sDEVICE=pdfwrite",
      "-dCompatibilityLevel=" ++ pdfVersion,
      "-dPDFSETTINGS=/screen",
      "-dEmbedAllFonts=true",
      "-dSubsetFonts=true",
      "-dAutoRotatePages=/None",
      "-dColorImageDownsampleType=/Bicubic",
      "-dColorImageResolution=" ++ toString dpi,
      "-dGrayImageDownsampleType=/Bicubic",
      "-dGrayImageResolution=" ++ toString dpi,
      "-dMonoImageDownsampleType=/Subsample",
      "-dMonoImageResolution=" ++ toString dpi,
      "-dMonoImageDownsampleType=/Subsample",
      "-dMonoImageResolution=" ++ toString dpi,
      "-sOutputFile=" ++ outPath, inPath]

/-! ## Helper lemmas -/

/-- A materialized session makes `writePDFToTemp` a pure no-op. -/
theorem writePDFToTemp_noop (s : Session) (env : Env) (t : String)
    (h : s.tmpFile = some t) : writePDFToTemp s env = (Except.ok (), s, []) := by
  simp [writePDFToTemp, h]

/-- On an unmaterialized session with a successful allocation,
`writePDFToTemp` installs the fresh temp file and records the
allocation, whatever happens afterwards. -/
theorem writePDFToTemp_allocates (s : Session) (env : Env) (t2 : String)
    (h0 : s.tmpFile = none) (h1 : env.allocResult = Except.ok t2) :
    (writePDFToTemp s env).2.1.tmpFile = some t2 ∧
    Effect.allocTmp t2 ∈ (writePDFToTemp s env).2.2 := by
  obtain ⟨src, tf⟩ := s
  simp only at h0
  subst h0
  unfold writePDFToTemp
  rw [h1]
  cases src with
  | str p =>
    by_cases hw : isWebUrl p
    · cases hf : env.fetchResult <;> simp [hw, hf]
    · cases hc : env.copyResult <;> simp [hw, hc]
  | buffer b =>
    cases hwr : env.writeResult <;> simp [hwr]

/-! ## Claim theorems -/

/-- Claim C3: once a temp-file reference exists, every further call to
the materializer returns immediately: the result is success, the
session is returned unchanged (it still holds exactly its single temp
file), and no allocation, fetch, copy, or write effect occurs. -/
theorem writePDFToTemp_idempotent (s : Session) (env : Env) (t : String)
    (h : s.tmpFile = some t) :
    writePDFToTemp s env = (Except.ok (), s, []) :=
  writePDFToTemp_noop s env t h

/-- Witness for C3 at a concrete materialized session. -/
theorem writePDFToTemp_idempotent_witness :
    sessionM.tmpFile = some "/tmp/pdf0" ∧
    writePDFToTemp sessionM env0 = (Except.ok (), sessionM, []) :=
  ⟨rfl, writePDFToTemp_idempotent sessionM env0 "/tmp/pdf0" rfl⟩

/-- Claim C4: `dispose` removes the temp file and clears the session's
reference; a second `dispose` is a no-op; and a subsequent materializer
call allocates afresh rather than reusing the removed file. -/
theorem dispose_clears_and_rematerializes (s : Session) (t : String)
    (h : s.tmpFile = some t) :
    (dispose s).1.tmpFile = none ∧
    (dispose s).2 = [Effect.cleanupTmp t] ∧
    dispose (dispose s).1 = ((dispose s).1, []) ∧
    (∀ env t2, env.allocResult = Except.ok t2 →
      (writePDFToTemp (dispose s).1 env).2.1.tmpFile = some t2 ∧
      Effect.allocTmp t2 ∈ (writePDFToTemp (dispose s).1 env).2.2) := by
  refine ⟨by simp [dispose, h], by simp [dispose, h], by simp [dispose, h], ?_⟩
  intro env t2 h1
  exact writePDFToTemp_allocates _ env t2 (by simp [dispose, h]) h1

/-- Witness for C4 at a concrete materialized session. -/
theorem dispose_clears_and_rematerializes_witness :
    (dispose sessionM).1.tmpFile = none ∧
    (writePDFToTemp (dispose sessionM).1 env0).2.1.tmpFile = some "/tmp/t0" :=
  ⟨(dispose_clears_and_rematerializes sessionM "/tmp/pdf0" rfl).1,
   ((dispose_clears_and_rematerializes sessionM "/tmp/pdf0" rfl).2.2.2
      env0 "/tmp/t0" rfl).1⟩

/-- Claim C10: when temp-file allocation succeeds but the subsequent
step that writes the source into it fails — the web fetch for a URL
source, the local copy for a path source, or the buffer write for a
byte-buffer source — the session retains the temp-file reference, so
every later operation skips re-materialization (the guard sees the
existing reference, performs no alloc/fetch/copy/write effect) and
invokes the converter directly on that retained temp file. -/
theorem failed_materialization_retains_tmpFile (s : Session) (env env2 : Env)
    (t : String)
    (h0 : s.tmpFile = none) (h1 : env.allocResult = Except.ok t)
    (hfail :
      (∃ u, s.source = PdfSource.str u ∧ isWebUrl u = true ∧
        ∃ e, env.fetchResult = Except.error e) ∨
      (∃ u, s.source = PdfSource.str u ∧ isWebUrl u = false ∧
        ∃ e, env.copyResult = Except.error e) ∨
      (∃ b, s.source = PdfSource.buffer b ∧
        ∃ e, env.writeResult = Except.error e)) :
    (∃ msg, (writePDFToTemp s env).1 = Except.error msg) ∧
    (writePDFToTemp s env).2.1.tmpFile = some t ∧
    writePDFToTemp (writePDFToTemp s env).2.1 env2
      = (Except.ok (), (writePDFToTemp s env).2.1, []) ∧
    (∀ opts content outPath gsOut,
      (shrink (writePDFToTemp s env).2.1 env2 opts content outPath gsOut).2.2
        = [Effect.runConverter (shrinkCore opts content t outPath gsOut).2]) ∧
    (∀ proc, (getPageCount (writePDFToTemp s env).2.1 env2 proc).2.2
        = [Effect.runShell (pageCountCommand t)]) ∧
    (∀ page res outPath gsOut,
      (convertPageToImage (writePDFToTemp s env).2.1 env2 page res outPath
          gsOut).2.2
        = [Effect.runConverter (convertCore page res t outPath gsOut).2]) := by
  have hw : ∃ msg effs, writePDFToTemp s env
      = (Except.error msg, { s with tmpFile := some t }, effs) := by
    rcases hfail with ⟨u, hsrc, hweb, e, hf⟩ | ⟨u, hsrc, hweb, e, hc⟩ |
      ⟨b, hsrc, e, hw2⟩
    · refine ⟨"Unable to fetch file from web location: " ++ e,
        [Effect.allocTmp t, Effect.fetchUrl u t], ?_⟩
      unfold writePDFToTemp
      rw [hsrc, h1, hf]
      simp [h0, hweb]
    · refine ⟨e, [Effect.allocTmp t, Effect.copySrc u t], ?_⟩
      unfold writePDFToTemp
      rw [hsrc, h1, hc]
      simp [h0, hweb]
    · refine ⟨"Unable to write tmp file: " ++ e,
        [Effect.allocTmp t, Effect.writeBuf t], ?_⟩
      unfold writePDFToTemp
      rw [hsrc, h1, hw2]
      simp [h0]
  obtain ⟨msg, effs, hw⟩ := hw
  rw [hw]
  have hnoop : writePDFToTemp { s with tmpFile := some t } env2
      = (Except.ok (), { s with tmpFile := some t }, []) :=
    writePDFToTemp_noop _ env2 t rfl
  refine ⟨⟨msg, rfl⟩, rfl, hnoop, ?_, ?_, ?_⟩
  · intro opts content outPath gsOut
    simp [shrink, hnoop]
  · intro proc
    cases proc <;> simp [getPageCount, hnoop]
  · intro page res outPath gsOut
    simp [convertPageToImage, hnoop]

/-- Witness for C10, exercising all three failure modes: a web fetch
failure, a local copy failure, and a buffer write failure, each
retaining the freshly allocated temp-file reference. -/
theorem failed_materialization_retains_tmpFile_witness :
    (writePDFToTemp sessionW envFail).2.1.tmpFile = some "/tmp/t1" ∧
    (writePDFToTemp { source := PdfSource.str "missing.pdf", tmpFile := none }
        { allocResult := Except.ok "/tmp/t2", fetchResult := Except.ok (),
          copyResult := Except.error "no such file",
          writeResult := Except.ok () }).2.1.tmpFile = some "/tmp/t2" ∧
    (writePDFToTemp { source := PdfSource.buffer [1, 2], tmpFile := none }
        { allocResult := Except.ok "/tmp/t3", fetchResult := Except.ok (),
          copyResult := Except.ok (),
          writeResult := Except.error "disk full" }).2.1.tmpFile
      = some "/tmp/t3" :=
  ⟨(failed_materialization_retains_tmpFile sessionW envFail env0 "/tmp/t1"
      rfl rfl
      (Or.inl ⟨"http://host/file.pdf", rfl, by decide, "net down", rfl⟩)).2.1,
   (failed_materialization_retains_tmpFile
      { source := PdfSource.str "missing.pdf", tmpFile := none }
      { allocResult := Except.ok "/tmp/t2", fetchResult := Except.ok (),
        copyResult := Except.error "no such file", writeResult := Except.ok () }
      env0 "/tmp/t2" rfl rfl
      (Or.inr (Or.inl ⟨"missing.pdf", rfl, by decide, "no such file",
        rfl⟩))).2.1,
   (failed_materialization_retains_tmpFile
      { source := PdfSource.buffer [1, 2], tmpFile := none }
      { allocResult := Except.ok "/tmp/t3", fetchResult := Except.ok (),
        copyResult := Except.ok (), writeResult := Except.error "disk full" }
      env0 "/tmp/t3" rfl rfl
      (Or.inr (Or.inr ⟨[1, 2], rfl, "disk full", rfl⟩))).2.1⟩

/-- Claim C1: `shrink` compares the materialized input's byte size with
the converter output's byte size; when the output is not strictly
smaller it returns the input bytes unchanged, so any buffer it returns
is never larger than the materialized input, for every session,
environment, and option combination. -/
theorem shrink_never_larger (s : Session) (env : Env) (opts : PdfShrinkOptions)
    (content : List Nat) (outPath : String) (gsOut : Except String (List Nat))
    (buf : List Nat)
    (h : (shrink s env opts content outPath gsOut).1 = Except.ok buf) :
    buf.length ≤ content.length ∧
    (∀ out, gsOut = Except.ok out → content.length ≤ out.length →
      buf = content) := by
  unfold shrink at h
  rcases hw : writePDFToTemp s env with ⟨r, s2, eff⟩
  rw [hw] at h
  cases r with
  | error e => simp at h
  | ok _ =>
    dsimp only at h
    cases ht : s2.tmpFile with
    | none => rw [ht] at h; simp at h
    | some t =>
      rw [ht] at h
      dsimp only at h
      cases gsOut with
      | error e => simp [shrinkCore] at h
      | ok out =>
        by_cases hle : content.length ≤ out.length
        · simp [shrinkCore, hle] at h
          subst h
          exact ⟨Nat.le_refl _, fun _ _ _ => rfl⟩
        · simp [shrinkCore, hle] at h
          subst h
          refine ⟨Nat.le_of_lt (Nat.lt_of_not_le hle), ?_⟩
          intro out2 ho hlen
          cases ho
          exact absurd hlen hle

/-- Witness for C1: a concrete shrink call whose converter output is
strictly smaller. -/
theorem shrink_never_larger_witness :
    (shrink sessionM env0 ⟨none, none, none⟩ [9, 9, 9] "/tmp/out"
        (Except.ok [7])).1 = Except.ok [7] ∧
    ([7] : List Nat).length ≤ ([9, 9, 9] : List Nat).length :=
  ⟨rfl, (shrink_never_larger sessionM env0 ⟨none, none, none⟩ [9, 9, 9]
      "/tmp/out" (Except.ok [7]) [7] rfl).1⟩

/-- Counterexample for C5: on a materialized session, when the
page-count process succeeds with digit-free standard output, the
operation returns the non-numeric sentinel (`none`, modelling `NaN`)
wrapped in a success value — it does not raise a page-count error. -/
theorem getPageCount_no_digits_cex :
    (getPageCount sessionM env0 (Except.ok "")).1 = Except.ok none ∧
    parseIntStripped "" = none := ⟨rfl, rfl⟩

/-- Claim C5 as amended: when the page-count converter process succeeds
but its standard output contains no digits, `getPageCount` returns the
`NaN` sentinel (`none`) as a successful result instead of raising. -/
theorem getPageCount_no_digits_nan (s : Session) (env : Env) (t : String)
    (stdout : String) (h : s.tmpFile = some t)
    (hd : stdout.toList.filter Char.isDigit = []) :
    (getPageCount s env (Except.ok stdout)).1 = Except.ok none := by
  unfold getPageCount
  rw [writePDFToTemp_noop s env t h]
  dsimp only
  rw [h]
  dsimp only [parseIntStripped]
  rw [hd]
  rfl

/-- Witness for the amended C5 at a concrete digit-free stdout. -/
theorem getPageCount_no_digits_nan_witness :
    sessionM.tmpFile = some "/tmp/pdf0" ∧
    (getPageCount sessionM env0 (Except.ok "no pages found")).1
      = Except.ok none :=
  ⟨rfl, getPageCount_no_digits_nan sessionM env0 "/tmp/pdf0" "no pages found"
      rfl (by decide)⟩

/-- Counterexample for C7: at concrete arguments the argument list the
source builds differs from the claimed flag set, because the mono-image
downsample pair occurs twice. -/
theorem shrinkArgs_duplicate_cex :
    shrinkArgs 300 "1.4" false "/tmp/out" "/tmp/in"
      ≠ specShrinkArgsClaimed 300 "1.4" false "/tmp/out" "/tmp/in" ∧
    (shrinkArgs 300 "1.4" false "/tmp/out" "/tmp/in").count
        ("-dMonoImageResolution=" ++ toString 300) = 2 := by
  exact ⟨by decide, by decide⟩

/-- Claim C7 as amended: for every dpi, version, grayscale choice and
path pair, the converter argument list is exactly the claimed flag set
except that the mono-image downsample type/resolution pair appears
twice in succession. -/
theorem shrinkArgs_spec_equiv (dpi : Nat) (pdfVersion : String)
    (greyScale : Bool) (outPath inPath : String) :
    shrinkArgs dpi pdfVersion greyScale outPath inPath
      = specShrinkArgsAmended dpi pdfVersion greyScale outPath inPath := by
  cases greyScale <;> rfl

/-- Claim C8: the error `shrink` raises on converter failure carries
the page-image extraction prefix, not a shrink-specific one — the two
operations produce byte-identical error messages for the same
underlying cause. -/
theorem shrink_error_prefix_collision :
    (shrink sessionM env0 ⟨none, some "1.4", none⟩ [0] "/tmp/out"
        (Except.error "gs exited 1")).1
      = Except.error ("Unable to process image from page: " ++ "gs exited 1") ∧
    (convertPageToImage sessionM env0 1 none "/tmp/out"
        (Except.error "gs exited 1")).1
      = Except.error ("Unable to process image from page: " ++ "gs exited 1") :=
  ⟨rfl, rfl⟩

/-- A digit character is not the dash separator. -/
theorem digit_ne_dash (c : Char) (h : c.isDigit = true) : c ≠ '-' := by
  intro hc
  subst hc
  exact absurd h (by decide)

/-- Any string `firstMatch` returns has the eight-character shape
`%PDF-` digit, wildcard, digit. -/
theorem firstMatch_shape (w m : List Char) (h : firstMatch w = some m) :
    ∃ d1 c d2, m = ['%', 'P', 'D', 'F', '-', d1, c, d2] ∧
      d1.isDigit = true ∧ wildcardOk c = true ∧ d2.isDigit = true := by
  induction w with
  | nil => simp [firstMatch] at h
  | cons x t ih =>
    rw [firstMatch] at h
    by_cases hm : matchesAt (x :: t)
    · rw [if_pos hm] at h
      rcases t with _ | ⟨b, t⟩
      · simp [matchesAt] at hm
      rcases t with _ | ⟨c, t⟩
      · simp [matchesAt] at hm
      rcases t with _ | ⟨d, t⟩
      · simp [matchesAt] at hm
      rcases t with _ | ⟨e, t⟩
      · simp [matchesAt] at hm
      rcases t with _ | ⟨f, t⟩
      · simp [matchesAt] at hm
      rcases t with _ | ⟨g, t⟩
      · simp [matchesAt] at hm
      rcases t with _ | ⟨k, rest⟩
      · simp [matchesAt] at hm
      simp only [matchesAt, Bool.and_eq_true, beq_iff_eq] at hm
      obtain ⟨⟨⟨⟨⟨⟨⟨h1, h2⟩, h3⟩, h4⟩, h5⟩, h6⟩, h7⟩, h8⟩ := hm
      refine ⟨f, g, k, ?_, h6, h7, h8⟩
      simp only [List.take] at h
      cases h
      rw [h1, h2, h3, h4, h5]
    · rw [if_neg hm] at h
      exact ih h

/-- The recursive scan `firstMatch` computes exactly the match at the
smallest matching start position. -/
theorem firstMatch_eq_spec (w : List Char) :
    firstMatch w = (specFirstMatchIdx w).map (fun i => (w.drop i).take 8) := by
  induction w with
  | nil => rfl
  | cons x t ih =>
    unfold specFirstMatchIdx
    rw [List.length_cons, List.range_succ_eq_map, firstMatch]
    by_cases hm : matchesAt (x :: t)
    · rw [if_pos hm]
      simp [List.find?, hm]
    · rw [if_neg hm]
      rw [ih]
      unfold specFirstMatchIdx
      have hp0 : matchesAt (x :: t) = false := by simpa using hm
      simp only [List.find?, List.drop_zero, hp0]
      rw [List.find?_map]
      simp only [Function.comp_def, Nat.succ_eq_add_one, List.drop_succ_cons,
        Option.map_map]

/-- Counterexample for C2 at two concrete windows: on `%PDF-1-4` the
claim as stated yields the trailing token `4` while the code yields the
fallback `1.4` (the claim omits the exactly-two-parts guard); on a
window whose wildcard position holds a line feed the claim as stated
finds a match and yields a token containing the line feed, while the
code finds no match (the JavaScript dot excludes line terminators) and
yields the fallback. -/
theorem getPdfVersion_literal_claim_cex :
    pdfVersionClaimed (String.toList "%PDF-1-4") = String.toList "4" ∧
    getPdfVersionModel (String.toList "%PDF-1-4") = String.toList "1.4" ∧
    String.toList "4" ≠ String.toList "1.4" ∧
    pdfVersionClaimed (String.toList ("%PDF-1" ++ "\n" ++ "4"))
      = String.toList ("1" ++ "\n" ++ "4") ∧
    getPdfVersionModel (String.toList ("%PDF-1" ++ "\n" ++ "4"))
      = String.toList "1.4" ∧
    String.toList ("1" ++ "\n" ++ "4") ≠ String.toList "1.4" := by
  refine ⟨by decide, by decide, by decide, by decide, by decide, by decide⟩

/-- Claim C2 as amended: `getPdfVersion` examines exactly the first
1025 bytes; it matches `%PDF-` digit, any character other than a line
terminator, digit; on the leftmost match it splits on `-` and returns
the trailing part trimmed exactly when the split has two parts; in
every other case (no match, or a different number of parts) it returns
the literal `"1.4"`. -/
theorem getPdfVersion_spec_equiv (file : List Char) :
    getPdfVersionModel file = pdfVersionAmendedSpec file := by
  unfold getPdfVersionModel getPdfVersionCore pdfVersionAmendedSpec
  rw [firstMatch_eq_spec]
  cases hi : specFirstMatchIdx (file.take 1025) with
  | none => rfl
  | some i =>
    dsimp only [Option.map_some]
    rcases hs : jsSplit '-' (((file.take 1025).drop i).take 8)
      with _ | ⟨a, _ | ⟨b, _ | ⟨c, r⟩⟩⟩
    · simp [hs]
    · simp [hs]
    · simp [hs]
    · simp [hs]

/-- Counterexample for C6: a window that contains `%PDF-1.4` but whose
first match is the earlier `%PDF-2.0` tag makes `getPdfVersion` return
`"2.0"`, not `"1.4"`. -/
theorem getPdfVersion_contains14_cex :
    containsSeq ((String.toList "%PDF-2.0%PDF-1.4").take 1025)
        (String.toList "%PDF-1.4") = true ∧
    getPdfVersionModel (String.toList "%PDF-2.0%PDF-1.4")
      = String.toList "2.0" ∧
    String.toList "2.0" ≠ String.toList "1.4" := by
  refine ⟨by decide, by decide, by decide⟩

/-- Claim C6 as amended: when the first regex match inside the first
1025 bytes is the string `%PDF-1.4` itself, `getPdfVersion` returns
`"1.4"`. -/
theorem getPdfVersion_first_match_14 (file : List Char)
    (h : firstMatch (file.take 1025) = some (String.toList "%PDF-1.4")) :
    getPdfVersionModel file = String.toList "1.4" := by
  unfold getPdfVersionModel getPdfVersionCore
  rw [h]
  decide

/-- Witness for the amended C6 at a concrete window whose first match
is `%PDF-1.4`. -/
theorem getPdfVersion_first_match_14_witness :
    firstMatch ((String.toList "xx%PDF-1.4yy").take 1025)
      = some (String.toList "%PDF-1.4") ∧
    getPdfVersionModel (String.toList "xx%PDF-1.4yy") = String.toList "1.4" :=
  ⟨by decide, getPdfVersion_first_match_14 (String.toList "xx%PDF-1.4yy")
      (by decide)⟩

/-- Claim C9: when the first match's wildcard character is `-`, the
split on `-` has more than two parts and `getPdfVersion` falls back to
`"1.4"`; and whenever the returned value is not the fallback literal,
the split of the first match had exactly two parts. -/
theorem getPdfVersion_dash_wildcard_fallback (file m : List Char)
    (h : firstMatch (file.take 1025) = some m) :
    (m.getD 6 ' ' = '-' → 2 < (jsSplit '-' m).length ∧
      getPdfVersionModel file = fallbackVersion) ∧
    (∀ tok, getPdfVersionModel file = tok → tok ≠ fallbackVersion →
      (jsSplit '-' m).length = 2) := by
  obtain ⟨d1, c, d2, hm, hd1, hc, hd2⟩ := firstMatch_shape _ _ h
  subst hm
  constructor
  · intro h6
    have hc6 : c = '-' := by simpa using h6
    subst hc6
    have hsplit : jsSplit '-' ['%', 'P', 'D', 'F', '-', d1, '-', d2]
        = [['%', 'P', 'D', 'F'], [d1], [d2]] := by
      simp [jsSplit, digit_ne_dash d1 hd1, digit_ne_dash d2 hd2]
    refine ⟨by rw [hsplit]; simp, ?_⟩
    unfold getPdfVersionModel getPdfVersionCore
    rw [h]
    dsimp only
    rw [hsplit]
    rfl
  · intro tok htok hne
    unfold getPdfVersionModel getPdfVersionCore at htok
    rw [h] at htok
    dsimp only at htok
    by_cases hl : (jsSplit '-' ['%', 'P', 'D', 'F', '-', d1, c, d2]).length = 2
    · exact hl
    · rw [if_neg hl] at htok
      exact absurd htok.symm hne

/-- Witness for C9 at the concrete window `%PDF-1-4`. -/
theorem getPdfVersion_dash_wildcard_fallback_witness :
    2 < (jsSplit '-' (String.toList "%PDF-1-4")).length ∧
    getPdfVersionModel (String.toList "%PDF-1-4") = fallbackVersion :=
  (getPdfVersion_dash_wildcard_fallback (String.toList "%PDF-1-4")
      (String.toList "%PDF-1-4") (by decide)).1 (by decide)
